import Mathlib

/-!
# kn-trace `show` command: polling loop, span filter and renderer

A shallow embedding of `internal/commands/show/show.go` and a verification of
its specification.

* Go's `error` results are `Option Error` (`none` is `nil`); results of the
  form `(value, error)` are `Except Error value`.
* Side effects (calls on the Zipkin connection, writes to standard output,
  sleeping) are recorded, in program order, as a list of `Event`s returned next
  to the result.
* `int64` quantities are `Int`; the places where Go wraps or saturates are
  explicit (`wrapInt64`, `saturateInt64`).
* A Go `map[string]string` is the list of its entries; the order in which a
  `range` statement visits them is chosen by the runtime (`Runtime.rangeOrder`).
-/

namespace KnTrace

/-! ## Go library types used by the command -/

/-- Smallest `int64`. -/
def minInt64 : Int := -9223372036854775808

/-- Largest `int64`; also the largest `time.Duration`, in nanoseconds. -/
def maxInt64 : Int := 9223372036854775807

/-- Two's-complement wrap-around of an integer into `int64`. -/
def wrapInt64 (x : Int) : Int := (x + 9223372036854775808) % 18446744073709551616 - 9223372036854775808

/-- Clamp an integer into `int64`: `time.Time.Sub` returns the minimum or maximum
duration when the true difference is out of range. -/
def saturateInt64 (x : Int) : Int :=
  if x < minInt64 then minInt64 else if maxInt64 < x then maxInt64 else x

/-- Go `time.Time`: a wall clock reading (nanoseconds since the Unix epoch, that is
`sec * 1e9 + nsec`) and an optional monotonic clock reading (nanoseconds). -/
structure Time where
  wallNanos : Int
  mono : Option Int
deriving DecidableEq, Repr

/-- Go `time.UnixMilli(msec)`: the wall time `msec` milliseconds after the epoch,
without a monotonic reading. -/
def time.UnixMilli (msec : Int) : Time :=
  { wallNanos := msec * 1000000, mono := none }

/-- Go `t.UnixMilli()`: `t.unixSec()*1e3 + int64(t.nsec())/1e6`, in `int64`. -/
def Time.UnixMilli (t : Time) : Int :=
  wrapInt64 ((t.wallNanos / 1000000000) * 1000 + (t.wallNanos % 1000000000) / 1000000)

/-- Go `t.Sub(u)`, a `time.Duration` in nanoseconds: the difference of the monotonic
readings when both times carry one, of the wall readings otherwise; saturating. -/
def Time.Sub (t u : Time) : Int :=
  match t.mono, u.mono with
  | some a, some b => saturateInt64 (a - b)
  | _, _ => saturateInt64 (t.wallNanos - u.wallNanos)

/-- Go `d.Milliseconds()`: `int64(d) / 1e6`, truncated towards zero. -/
def Duration.Milliseconds (d : Int) : Int := Int.tdiv d 1000000

/-- Go `time.Second`, in nanoseconds. -/
def time.Second : Int := 1000000000

/-- Go `error` values. -/
abbrev Error := String

/-- Zipkin `model.Endpoint` (the field the command reads). -/
structure Endpoint where
  ServiceName : String
deriving DecidableEq, Repr

/-- Zipkin `model.Annotation`. -/
structure AnnotationEntry where
  Timestamp : Time
  Value : String
deriving DecidableEq, Repr

/-- Zipkin `model.SpanModel` (the fields the command reads). `ID` is a `uint64`;
`LocalEndpoint` and `RemoteEndpoint` are pointers (`none` is `nil`); `Tags` is a
`map[string]string`, given by its entries. -/
structure SpanModel where
  ID : Nat
  Name : String
  Timestamp : Time
  LocalEndpoint : Option Endpoint
  RemoteEndpoint : Option Endpoint
  Annotations : List AnnotationEntry
  Tags : List (String × String)
deriving DecidableEq, Repr

/-- Go map index expression `m[key]` on a `map[string]string`: the value stored under
`key`, or the zero value `""` when the key is absent. -/
def mapIndex (m : List (String × String)) (key : String) : String :=
  match m with
  | [] => ""
  | (k, v) :: rest => if k = key then v else mapIndex rest key

/-- The keys of a map. -/
def mapKeys (m : List (String × String)) : List String := m.map Prod.fst

/-- Zipkin `model.ID.String()`: `fmt.Sprintf("%016x", uint64(i))`. -/
def ID.String (i : Nat) : String :=
  let ds := Nat.toDigits 16 (i % 18446744073709551616)
  String.mk (List.replicate (16 - ds.length) '0' ++ ds)

/-- What the Go runtime and library decide and the command does not: the order in
which `range` visits the entries of a map (some permutation of the entries), and
the text `time.Time.String()` produces. -/
structure Runtime where
  rangeOrder : List (String × String) → List (String × String)
  rangeOrder_perm : ∀ m, (rangeOrder m).Perm m
  timeString : Time → String

/-- The `zipkin.Connection` collaborator during one poll cycle: the answer of
`Services()` and of `Spans(service, endTimestampMillis, lookbackMillis)`. -/
structure Connection where
  Services : Except Error (List String)
  Spans : String → Int → Int → Except Error (List (List SpanModel))

/-- Observable actions of the command, in program order. -/
inductive Event where
  | services
  | spans (svc : String) (endTimestampMillis lookbackMillis : Int)
  | print (text : String)
  | sleep (nanos : Int)
deriving DecidableEq, Repr

/-- The texts written to standard output, one entry per `fmt.Printf` or
`fmt.Println` call (each ends in a newline). -/
def output (evs : List Event) : List String :=
  evs.filterMap fun e => match e with
    | Event.print text => some text
    | _ => none

/-- The `Spans` queries issued, as `(service, endTimestampMillis, lookbackMillis)`. -/
def queries (evs : List Event) : List (String × Int × Int) :=
  evs.filterMap fun e => match e with
    | Event.spans svc endTs lookback => some (svc, endTs, lookback)
    | _ => none

/-! ## `show.go` -/

/-- The `showFlags` struct. -/
structure showFlags where
  follow : Bool
  verbose : Bool
  all : Bool
deriving DecidableEq, Repr

/-- Loop of `hasCloudEventTagId`: `for key := range span.Tags`, over the entries in
the order the runtime yields them. -/
def hasCloudEventTagId.loop : List (String × String) → Bool
  | [] => false
  | (key, _) :: rest => if key = "cloudevents.id" then true else hasCloudEventTagId.loop rest

/-- Source function `hasCloudEventTagId` (show.go, lines 162-169). -/
def hasCloudEventTagId (rt : Runtime) (span : SpanModel) : Bool :=
  hasCloudEventTagId.loop (rt.rangeOrder span.Tags)

/-- Text of `fmt.Printf("%s %s %s\n", span.Tags["cloudevents.source"],
span.Tags["cloudevents.id"], span.Tags["cloudevents.type"])` (line 126). -/
def summaryLine (span : SpanModel) : String :=
  mapIndex span.Tags "cloudevents.source" ++ " " ++ mapIndex span.Tags "cloudevents.id" ++ " "
    ++ mapIndex span.Tags "cloudevents.type" ++ "\n"

/-- Text of `fmt.Printf("  %s\n", endpoint.ServiceName)` (lines 130, 135). -/
def endpointLine (ep : Endpoint) : String := "  " ++ ep.ServiceName ++ "\n"

/-- Text of `fmt.Printf("  %s %s %s\n", span.Timestamp, span.Name, span.ID.String())`
(line 138). -/
def detailLine (rt : Runtime) (span : SpanModel) : String :=
  "  " ++ rt.timeString span.Timestamp ++ " " ++ span.Name ++ " " ++ ID.String span.ID ++ "\n"

/-- Text of `fmt.Printf("    %s\n", annotation)` (line 143); `%s` prints the struct
as its fields between braces. -/
def annotationLine (rt : Runtime) (a : AnnotationEntry) : String :=
  "    \x7b" ++ rt.timeString a.Timestamp ++ " " ++ a.Value ++ "\x7d\n"

/-- Text of `fmt.Printf("    %s=%s\n", key, value)` (line 149). -/
def tagLine (kv : String × String) : String := "    " ++ kv.1 ++ "=" ++ kv.2 ++ "\n"

/-- Loop `for _, annotation := range span.Annotations` (lines 142-144). -/
def showSpans.annotations (rt : Runtime) : List AnnotationEntry → List Event
  | [] => []
  | a :: rest => Event.print (annotationLine rt a) :: showSpans.annotations rt rest

/-- Loop `for key, value := range span.Tags` (lines 148-150), over the entries in
the order the runtime yields them. -/
def showSpans.tags : List (String × String) → List Event
  | [] => []
  | kv :: rest => Event.print (tagLine kv) :: showSpans.tags rest

/-- Body of `if all || hasCloudEventTagId(span)` (lines 126-153): the writes made for
one kept span. -/
def showSpans.printSpan (rt : Runtime) (verbose : Bool) (span : SpanModel) : List Event :=
  let out := [Event.print (summaryLine span)]
  if verbose then
    let out := match span.LocalEndpoint with
      | some ep => out ++ [Event.print (endpointLine ep)]
      | none => out
    let out := match span.RemoteEndpoint with
      | some ep => out ++ [Event.print (endpointLine ep)]
      | none => out
    let out := out ++ [Event.print (detailLine rt span)]
    let out := if span.Annotations.length > 0 then
        out ++ [Event.print "  annotations:\n"] ++ showSpans.annotations rt span.Annotations
      else out
    let out := if span.Tags.length > 0 then
        out ++ [Event.print "  tags:\n"] ++ showSpans.tags (rt.rangeOrder span.Tags)
      else out
    out
  else out

/-- Loop `for _, span := range span1` (lines 124-156) over one trace. -/
def showSpans.trace (rt : Runtime) (verbose all : Bool) : List SpanModel → List Event
  | [] => []
  | span :: rest =>
    (if all || hasCloudEventTagId rt span then showSpans.printSpan rt verbose span else [])
      ++ showSpans.trace rt verbose all rest

/-- Loop `for _, span1 := range spans` (lines 123-157) over the traces of one service. -/
def showSpans.traces (rt : Runtime) (verbose all : Bool) : List (List SpanModel) → List Event
  | [] => []
  | span1 :: rest => showSpans.trace rt verbose all span1 ++ showSpans.traces rt verbose all rest

/-- Loop `for _, svc := range services` (lines 116-158): query the spans of each
service, return at the first failing query. -/
def showSpans.services (rt : Runtime) (connection : Connection) (endTs : Time) (lookback : Int)
    (verbose all : Bool) : List String → Option Error × List Event
  | [] => (none, [])
  | svc :: rest =>
    match connection.Spans svc endTs.UnixMilli lookback with
    | Except.error err => (some err, [Event.spans svc endTs.UnixMilli lookback])
    | Except.ok spans =>
      let r := showSpans.services rt connection endTs lookback verbose all rest
      (r.1, Event.spans svc endTs.UnixMilli lookback :: (showSpans.traces rt verbose all spans ++ r.2))

/-- Source function `showSpans` (show.go, lines 106-160). -/
def showSpans (rt : Runtime) (connection : Connection) (now since : Time) (verbose all : Bool) :
    Option Error × List Event :=
  let endTs := now
  let lookback := Duration.Milliseconds (endTs.Sub since)
  match connection.Services with
  | Except.error err => (some err, [Event.services])
  | Except.ok services =>
    let r := showSpans.services rt connection endTs lookback verbose all services
    (r.1, Event.services :: r.2)

/-- The surroundings of a run: the value `time.Now()` returns at the start of poll
cycle `n`, and how the connection answers during cycle `n`. -/
structure Env where
  Now : Nat → Time
  connection : Nat → Connection

/-- How far a run got: still polling when the step budget ran out, or returned. -/
inductive Outcome where
  | running
  | returned (err : Option Error)
deriving DecidableEq, Repr

/-- The `for` loop of `RunE` (lines 80-94), entered at poll cycle `cycle` with the
current value of `since`; `fuel` bounds the number of cycles executed. -/
def NewShowCommand.loop (rt : Runtime) (env : Env) (showflags : showFlags) :
    Nat → Nat → Time → Outcome × List Event
  | 0, _, _ => (Outcome.running, [])
  | fuel + 1, cycle, since =>
    let now := env.Now cycle
    let r := showSpans rt (env.connection cycle) now since showflags.verbose showflags.all
    match r.1 with
    | some err => (Outcome.returned (some err), r.2)
    | none =>
      if !showflags.follow then (Outcome.returned none, r.2)
      else
        let k := NewShowCommand.loop rt env showflags fuel (cycle + 1) now
        (k.1, r.2 ++ Event.sleep (1 * time.Second) :: k.2)

/-- The part of `RunE` after the connection is established (lines 79-94):
`since := time.UnixMilli(0)`, then the loop. -/
def NewShowCommand.RunE (rt : Runtime) (env : Env) (showflags : showFlags) (fuel : Nat) :
    Outcome × List Event :=
  let since := time.UnixMilli 0
  NewShowCommand.loop rt env showflags fuel 0 since

/-! ## The backend's answer, in the words of the specification -/

/-- The services the backend listed (none when `Services()` failed). -/
def Connection.serviceList (c : Connection) : List String :=
  match c.Services with
  | Except.ok services => services
  | Except.error _ => []

/-- The traces the backend returned for one service and window (none when the query
failed). -/
def Connection.tracesOf (c : Connection) (endTimestampMillis lookbackMillis : Int) (svc : String) :
    List (List SpanModel) :=
  match c.Spans svc endTimestampMillis lookbackMillis with
  | Except.ok spans => spans
  | Except.error _ => []

/-- Every span the backend returned for the window: per service in enumeration
order, the traces flattened in trace-then-span order. -/
def returnedSpans (c : Connection) (endTimestampMillis lookbackMillis : Int) : List SpanModel :=
  c.serviceList.flatMap fun svc => (c.tracesOf endTimestampMillis lookbackMillis svc).flatten

/-- The condition of line 125: keep a span when `all` is set or the span is
event-carrying. -/
def keepSpan (rt : Runtime) (all : Bool) (span : SpanModel) : Bool :=
  all || hasCloudEventTagId rt span

/-- The lines written for one kept span. -/
def Render (rt : Runtime) (verbose : Bool) (span : SpanModel) : List String :=
  output (showSpans.printSpan rt verbose span)

/-! ## Sample data -/

/-- A runtime that ranges over map entries in stored order and prints times as their
wall clock nanoseconds. -/
def rtStored : Runtime :=
  { rangeOrder := fun m => m
    rangeOrder_perm := fun m => List.Perm.refl m
    timeString := fun t => toString t.wallNanos }

/-- A runtime that ranges over map entries in reverse stored order. -/
def rtReversed : Runtime :=
  { rangeOrder := fun m => m.reverse
    rangeOrder_perm := fun m => List.reverse_perm m
    timeString := fun t => toString t.wallNanos }

/-- A span carrying the three CloudEvents tags. -/
def eventSpan : SpanModel :=
  { ID := 255, Name := "send", Timestamp := time.UnixMilli 5, LocalEndpoint := some ⟨"broker"⟩,
    RemoteEndpoint := none, Annotations := [⟨time.UnixMilli 6, "ws"⟩],
    Tags := [("cloudevents.id", "42"), ("cloudevents.type", "t"), ("cloudevents.source", "s")] }

/-- A span without CloudEvents tags. -/
def plainSpan : SpanModel :=
  { ID := 1, Name := "get", Timestamp := time.UnixMilli 7, LocalEndpoint := none,
    RemoteEndpoint := some ⟨"db"⟩, Annotations := [],
    Tags := [("http.method", "GET")] }

/-- Scenario of the specification: services A and B; A has one trace with one event
span and one non-event span, B has no spans. -/
def connAB : Connection :=
  { Services := Except.ok ["A", "B"]
    Spans := fun svc _ _ => if svc = "A" then Except.ok [[eventSpan, plainSpan]] else Except.ok [] }

/-- Services A, B and C; the query for A returns one event span, the query for B
fails. -/
def connSpansFail : Connection :=
  { Services := Except.ok ["A", "B", "C"]
    Spans := fun svc _ _ =>
      if svc = "A" then Except.ok [[eventSpan]]
      else if svc = "B" then Except.error "zipkin: 503" else Except.ok [[plainSpan]] }

/-- A backend whose `Services()` call fails. -/
def connServicesFail : Connection :=
  { Services := Except.error "zipkin: unreachable"
    Spans := fun _ _ _ => Except.ok [[eventSpan]] }

/-- A backend with one service and no spans. -/
def connQuiet : Connection :=
  { Services := Except.ok ["svc"]
    Spans := fun _ _ _ => Except.ok [] }

/-- Flags `--follow`. -/
def flagsFollow : showFlags := { follow := true, verbose := false, all := false }

/-- No flag set. -/
def flagsDefault : showFlags := { follow := false, verbose := false, all := false }

/-- A run whose `Services()` call fails in the first cycle. -/
def envServicesFail : Env :=
  { Now := fun n => time.UnixMilli (1636000000000 + 1000 * n)
    connection := fun _ => connServicesFail }

/-- Two poll cycles 1.000000001 s apart on both clocks: 2021-11-04T04:26:40.000999999Z,
then 04:26:41.001Z. -/
def envFollow : Env :=
  { Now := fun n =>
      if n = 0 then { wallNanos := 1636000000000999999, mono := some 5000000000 }
      else { wallNanos := 1636000001001000000, mono := some 6000000001 }
    connection := fun _ => connQuiet }

/-- A run started at 2300-01-01T00:00:00Z, more than the largest `time.Duration`
after the epoch. -/
def envFarFuture : Env :=
  { Now := fun _ => { wallNanos := 10413792000000000000, mono := some 1000 }
    connection := fun _ => connQuiet }

/-- A run started at 2021-11-04T04:26:40.5Z. -/
def envToday : Env :=
  { Now := fun n => { wallNanos := 1636000000500000000 + 1000000000 * n, mono := some (1000000000 * n) }
    connection := fun _ => connAB }

/-- A span with both endpoints and neither annotations nor tags. -/
def bareSpan : SpanModel :=
  { ID := 4096, Name := "relay", Timestamp := time.UnixMilli 9, LocalEndpoint := some ⟨"ingress"⟩,
    RemoteEndpoint := some ⟨"sink"⟩, Annotations := [], Tags := [] }

/-! ## Auxiliary lemmas -/

theorem hasCloudEventTagId.loop_iff (m : List (String × String)) :
    hasCloudEventTagId.loop m = true ↔ ∃ v, ("cloudevents.id", v) ∈ m := by
  induction m with
  | nil => simp [hasCloudEventTagId.loop]
  | cons kv rest ih =>
    obtain ⟨k, v⟩ := kv
    by_cases hk : k = "cloudevents.id"
    · subst hk
      simp [hasCloudEventTagId.loop]
    · simp [hasCloudEventTagId.loop, hk, ih]
      constructor
      · rintro ⟨w, hw⟩
        exact ⟨w, Or.inr hw⟩
      · rintro ⟨w, hw⟩
        rcases hw with hw | hw
        · exact absurd hw.1.symm hk
        · exact ⟨w, hw⟩

theorem mem_mapKeys (m : List (String × String)) (k : String) :
    k ∈ mapKeys m ↔ ∃ v, (k, v) ∈ m := by
  simp [mapKeys]

theorem output_append (a b : List Event) : output (a ++ b) = output a ++ output b := by
  simp [output, List.filterMap_append]

theorem output_print (t : String) (rest : List Event) :
    output (Event.print t :: rest) = t :: output rest := by
  simp [output, List.filterMap_cons]

theorem output_spans (svc : String) (e l : Int) (rest : List Event) :
    output (Event.spans svc e l :: rest) = output rest := by
  simp [output, List.filterMap_cons]

theorem output_services (rest : List Event) : output (Event.services :: rest) = output rest := by
  simp [output, List.filterMap_cons]

theorem output_nil : output [] = [] := rfl

theorem showSpans.tags_eq_map (m : List (String × String)) :
    showSpans.tags m = m.map fun kv => Event.print (tagLine kv) := by
  induction m with
  | nil => rfl
  | cons kv rest ih => simp [showSpans.tags, ih]

theorem showSpans.annotations_eq_map (rt : Runtime) (as : List AnnotationEntry) :
    showSpans.annotations rt as = as.map fun a => Event.print (annotationLine rt a) := by
  induction as with
  | nil => rfl
  | cons a rest ih => simp [showSpans.annotations, ih]

theorem output_map_print {α : Type} (f : α → String) (l : List α) :
    output (l.map fun a => Event.print (f a)) = l.map f := by
  induction l with
  | nil => rfl
  | cons a rest ih => simp [output_print, ih]

theorem output_trace (rt : Runtime) (verbose all : Bool) (spans : List SpanModel) :
    output (showSpans.trace rt verbose all spans) =
      (spans.filter (keepSpan rt all)).flatMap (Render rt verbose) := by
  induction spans with
  | nil => rfl
  | cons s rest ih =>
    by_cases hk : (all || hasCloudEventTagId rt s) = true
    · simp [showSpans.trace, hk, output_append, ih, keepSpan, Render]
    · simp [showSpans.trace, hk, output_append, ih, keepSpan, Render, output_nil]

theorem output_traces (rt : Runtime) (verbose all : Bool) (traces : List (List SpanModel)) :
    output (showSpans.traces rt verbose all traces) =
      (traces.flatten.filter (keepSpan rt all)).flatMap (Render rt verbose) := by
  induction traces with
  | nil => rfl
  | cons t rest ih =>
    simp [showSpans.traces, output_append, output_trace, ih]

theorem services_loop_append (rt : Runtime) (c : Connection) (endTs : Time) (lookback : Int)
    (verbose all : Bool) (pre rest : List String) :
    showSpans.services rt c endTs lookback verbose all (pre ++ rest) =
      match (showSpans.services rt c endTs lookback verbose all pre).1 with
      | some err => (some err, (showSpans.services rt c endTs lookback verbose all pre).2)
      | none => ((showSpans.services rt c endTs lookback verbose all rest).1,
          (showSpans.services rt c endTs lookback verbose all pre).2
            ++ (showSpans.services rt c endTs lookback verbose all rest).2) := by
  induction pre with
  | nil => simp [showSpans.services]
  | cons svc more ih =>
    simp only [List.cons_append, showSpans.services]
    cases hq : c.Spans svc endTs.UnixMilli lookback with
    | error err => simp
    | ok spans =>
      cases hm : (showSpans.services rt c endTs lookback verbose all more).1 <;>
        simp only [hm] at ih <;> simp [ih, hm]

theorem services_loop_ok (rt : Runtime) (c : Connection) (endTs : Time) (lookback : Int)
    (verbose all : Bool) (svcs : List String)
    (h : ∀ svc ∈ svcs, ∃ r, c.Spans svc endTs.UnixMilli lookback = Except.ok r) :
    showSpans.services rt c endTs lookback verbose all svcs =
      (none, svcs.flatMap fun svc => Event.spans svc endTs.UnixMilli lookback ::
        showSpans.traces rt verbose all (c.tracesOf endTs.UnixMilli lookback svc)) := by
  induction svcs with
  | nil => rfl
  | cons svc rest ih =>
    obtain ⟨r, hr⟩ := h svc (List.mem_cons_self _ _)
    have ih2 := ih fun s hs => h s (List.mem_cons_of_mem _ hs)
    simp [showSpans.services, hr, ih2, Connection.tracesOf]

theorem services_loop_none (rt : Runtime) (c : Connection) (endTs : Time) (lookback : Int)
    (verbose all : Bool) (svcs : List String)
    (h : (showSpans.services rt c endTs lookback verbose all svcs).1 = none) :
    ∀ svc ∈ svcs, ∃ r, c.Spans svc endTs.UnixMilli lookback = Except.ok r := by
  induction svcs with
  | nil => simp
  | cons svc rest ih =>
    intro s hs
    simp only [showSpans.services] at h
    cases hq : c.Spans svc endTs.UnixMilli lookback with
    | error err => simp [hq] at h
    | ok spans =>
      simp only [hq] at h
      rcases List.mem_cons.mp hs with rfl | hs
      · exact ⟨spans, hq⟩
      · exact ih h s hs

theorem showSpans_success (rt : Runtime) (c : Connection) (now since : Time) (verbose all : Bool)
    (h : (showSpans rt c now since verbose all).1 = none) :
    (∃ svcs, c.Services = Except.ok svcs) ∧
    ∀ svc ∈ c.serviceList, ∃ r,
      c.Spans svc now.UnixMilli (Duration.Milliseconds (now.Sub since)) = Except.ok r := by
  unfold showSpans at h
  cases hs : c.Services with
  | error err => simp [hs] at h
  | ok svcs =>
    simp only [hs] at h
    refine ⟨⟨svcs, rfl⟩, ?_⟩
    simp only [Connection.serviceList, hs]
    exact services_loop_none rt c now _ verbose all svcs h

theorem showSpans_events (rt : Runtime) (c : Connection) (now since : Time) (verbose all : Bool)
    (h : (showSpans rt c now since verbose all).1 = none) :
    (showSpans rt c now since verbose all).2 =
      Event.services :: c.serviceList.flatMap fun svc =>
        Event.spans svc now.UnixMilli (Duration.Milliseconds (now.Sub since)) ::
          showSpans.traces rt verbose all
            (c.tracesOf now.UnixMilli (Duration.Milliseconds (now.Sub since)) svc) := by
  obtain ⟨⟨svcs, hs⟩, hq⟩ := showSpans_success rt c now since verbose all h
  simp only [Connection.serviceList, hs] at hq
  simp only [showSpans, hs, Connection.serviceList]
  rw [services_loop_ok rt c now _ verbose all svcs hq]

theorem output_flatMap_services (rt : Runtime) (c : Connection) (e l : Int) (verbose all : Bool)
    (svcs : List String) :
    output (svcs.flatMap fun svc => Event.spans svc e l ::
        showSpans.traces rt verbose all (c.tracesOf e l svc)) =
      svcs.flatMap fun svc =>
        ((c.tracesOf e l svc).flatten.filter (keepSpan rt all)).flatMap (Render rt verbose) := by
  induction svcs with
  | nil => rfl
  | cons svc rest ih =>
    simp only [List.flatMap_cons, List.cons_append, output_spans, output_append, output_traces, ih]

theorem showSpans_flags_irrelevant (rt : Runtime) (c : Connection) (now since : Time)
    (v a v2 a2 : Bool) :
    (showSpans rt c now since v a).1 = (showSpans rt c now since v2 a2).1 := by
  have key : ∀ svcs : List String,
      (showSpans.services rt c now (Duration.Milliseconds (now.Sub since)) v a svcs).1 =
      (showSpans.services rt c now (Duration.Milliseconds (now.Sub since)) v2 a2 svcs).1 := by
    intro svcs
    induction svcs with
    | nil => rfl
    | cons svc rest ih =>
      simp only [showSpans.services]
      cases c.Spans svc now.UnixMilli (Duration.Milliseconds (now.Sub since)) with
      | error err => rfl
      | ok spans => exact ih
  unfold showSpans
  cases c.Services with
  | error err => rfl
  | ok svcs => exact key svcs


theorem hasCloudEventTagId_eq_true_iff (rt : Runtime) (span : SpanModel) :
    hasCloudEventTagId rt span = true ↔ ∃ v, ("cloudevents.id", v) ∈ span.Tags := by
  unfold hasCloudEventTagId
  rw [hasCloudEventTagId.loop_iff]
  constructor
  · rintro ⟨v, hv⟩
    exact ⟨v, (rt.rangeOrder_perm span.Tags).mem_iff.mp hv⟩
  · rintro ⟨v, hv⟩
    exact ⟨v, (rt.rangeOrder_perm span.Tags).mem_iff.mpr hv⟩

theorem filter_flatMap_flatMap {α β γ : Type} (p : β → Bool) (f : α → List β) (g : β → List γ)
    (l : List α) :
    (l.flatMap fun a => ((f a).filter p).flatMap g) = ((l.flatMap f).filter p).flatMap g := by
  induction l with
  | nil => rfl
  | cons a rest ih => simp [List.flatMap_cons, List.filter_append, List.flatMap_append, ih]

theorem showSpans_output_returned (rt : Runtime) (c : Connection) (now since : Time)
    (verbose all : Bool) (h : (showSpans rt c now since verbose all).1 = none) :
    output (showSpans rt c now since verbose all).2 =
      ((returnedSpans c now.UnixMilli (Duration.Milliseconds (now.Sub since))).filter
        (keepSpan rt all)).flatMap (Render rt verbose) := by
  rw [showSpans_events rt c now since verbose all h, output_services, output_flatMap_services,
    returnedSpans, filter_flatMap_flatMap]

theorem keepSpan_false_eq (rt : Runtime) :
    keepSpan rt false = fun s => decide ("cloudevents.id" ∈ mapKeys s.Tags) := by
  funext s
  have h : hasCloudEventTagId rt s = true ↔ "cloudevents.id" ∈ mapKeys s.Tags := by
    rw [hasCloudEventTagId_eq_true_iff, mem_mapKeys]
  by_cases hm : "cloudevents.id" ∈ mapKeys s.Tags
  · simp [keepSpan, hm, h.mpr hm]
  · have : hasCloudEventTagId rt s = false := by
      cases hh : hasCloudEventTagId rt s
      · rfl
      · exact absurd (h.mp hh) hm
    simp [keepSpan, hm, this]

theorem Render_verbose (rt : Runtime) (span : SpanModel) :
    Render rt true span =
      [summaryLine span]
        ++ (span.LocalEndpoint.map endpointLine).toList
        ++ (span.RemoteEndpoint.map endpointLine).toList
        ++ [detailLine rt span]
        ++ (if span.Annotations = [] then []
            else "  annotations:\n" :: span.Annotations.map (annotationLine rt))
        ++ (if span.Tags = [] then []
            else "  tags:\n" :: (rt.rangeOrder span.Tags).map tagLine) := by
  unfold Render showSpans.printSpan
  rw [showSpans.tags_eq_map, showSpans.annotations_eq_map]
  cases hl : span.LocalEndpoint <;> cases hr : span.RemoteEndpoint <;>
    cases ha : span.Annotations <;> cases ht : span.Tags <;>
    simp [output_append, output_print, output_map_print, output_nil]

theorem Render_terse (rt : Runtime) (span : SpanModel) :
    Render rt false span = [summaryLine span] := by
  simp [Render, showSpans.printSpan, output_print, output_nil]

theorem Render_head (rt : Runtime) (verbose : Bool) (span : SpanModel) :
    ∃ rest, Render rt verbose span = summaryLine span :: rest := by
  cases verbose
  · exact ⟨[], Render_terse rt span⟩
  · rw [Render_verbose]
    exact ⟨_, rfl⟩

theorem printSpan_eq_map (rt : Runtime) (verbose : Bool) (span : SpanModel) :
    showSpans.printSpan rt verbose span = (Render rt verbose span).map Event.print := by
  unfold Render showSpans.printSpan
  rw [showSpans.tags_eq_map, showSpans.annotations_eq_map]
  cases verbose <;> cases hl : span.LocalEndpoint <;> cases hr : span.RemoteEndpoint <;>
    cases ha : span.Annotations <;> cases ht : span.Tags <;>
    simp [output_append, output_print, output_map_print, output_nil, Function.comp_def]

theorem keepSpan_true_eq (rt : Runtime) : keepSpan rt true = fun _ => true := by
  funext s
  simp [keepSpan]

theorem mapIndex_absent (m : List (String × String)) (k : String) (h : k ∉ mapKeys m) :
    mapIndex m k = "" := by
  induction m with
  | nil => rfl
  | cons kv rest ih =>
    obtain ⟨k2, v2⟩ := kv
    simp only [mapKeys, List.map_cons, List.mem_cons, not_or] at h
    have hne : ¬ k2 = k := fun e => h.1 e.symm
    simp only [mapIndex, hne, if_false]
    exact ih h.2

theorem mapIndex_present (m : List (String × String)) (k v : String)
    (hn : (mapKeys m).Nodup) (h : (k, v) ∈ m) : mapIndex m k = v := by
  induction m with
  | nil => simp at h
  | cons kv rest ih =>
    obtain ⟨k2, v2⟩ := kv
    simp only [mapKeys, List.map_cons, List.nodup_cons] at hn
    rcases List.mem_cons.mp h with heq | hin
    · cases heq
      simp [mapIndex]
    · have hne : ¬ k2 = k := by
        intro e
        subst e
        exact hn.1 (List.mem_map.mpr ⟨(k2, v), hin, rfl⟩)
      simp only [mapIndex, hne, if_false]
      exact ih hn.2 hin

theorem queries_append (a b : List Event) : queries (a ++ b) = queries a ++ queries b := by
  simp [queries, List.filterMap_append]

theorem queries_map_print (l : List String) : queries (l.map Event.print) = [] := by
  induction l with
  | nil => rfl
  | cons t rest ih =>
    simp only [queries, List.map_cons, List.filterMap_cons] at ih ⊢
    exact ih

theorem queries_trace (rt : Runtime) (verbose all : Bool) (spans : List SpanModel) :
    queries (showSpans.trace rt verbose all spans) = [] := by
  induction spans with
  | nil => rfl
  | cons s rest ih =>
    simp only [showSpans.trace, queries_append, ih, List.append_nil]
    split
    · rw [printSpan_eq_map, queries_map_print]
    · rfl

theorem queries_traces (rt : Runtime) (verbose all : Bool) (traces : List (List SpanModel)) :
    queries (showSpans.traces rt verbose all traces) = [] := by
  induction traces with
  | nil => rfl
  | cons t rest ih => simp [showSpans.traces, queries_append, queries_trace, ih]

theorem queries_spans (svc : String) (e l : Int) (rest : List Event) :
    queries (Event.spans svc e l :: rest) = (svc, e, l) :: queries rest := by
  simp [queries, List.filterMap_cons]

theorem queries_services (rest : List Event) : queries (Event.services :: rest) = queries rest := by
  simp [queries, List.filterMap_cons]

theorem queries_flatMap_services (rt : Runtime) (c : Connection) (e l : Int) (verbose all : Bool)
    (svcs : List String) :
    queries (svcs.flatMap fun svc => Event.spans svc e l ::
        showSpans.traces rt verbose all (c.tracesOf e l svc)) =
      svcs.map fun svc => (svc, e, l) := by
  induction svcs with
  | nil => rfl
  | cons svc rest ih =>
    simp only [List.flatMap_cons, List.cons_append, queries_spans, queries_append, queries_traces,
      ih, List.nil_append, List.map_cons]

theorem queries_services_loop (rt : Runtime) (c : Connection) (endTs : Time) (lookback : Int)
    (verbose all : Bool) (svcs : List String) :
    ∀ q ∈ queries (showSpans.services rt c endTs lookback verbose all svcs).2,
      q.2.1 = endTs.UnixMilli ∧ q.2.2 = lookback := by
  induction svcs with
  | nil => simp [showSpans.services, queries]
  | cons svc rest ih =>
    intro q hq
    simp only [showSpans.services] at hq
    cases hs : c.Spans svc endTs.UnixMilli lookback with
    | error err =>
      simp only [hs, queries_spans, List.mem_cons] at hq
      rcases hq with rfl | hq
      · exact ⟨rfl, rfl⟩
      · simp [queries] at hq
    | ok spans =>
      simp only [hs, queries_spans, queries_append, queries_traces, List.nil_append,
        List.mem_cons] at hq
      rcases hq with rfl | hq
      · exact ⟨rfl, rfl⟩
      · exact ih q hq

theorem queries_showSpans (rt : Runtime) (c : Connection) (now since : Time) (verbose all : Bool) :
    ∀ q ∈ queries (showSpans rt c now since verbose all).2,
      q.2.1 = now.UnixMilli ∧ q.2.2 = Duration.Milliseconds (now.Sub since) := by
  intro q hq
  unfold showSpans at hq
  cases hs : c.Services with
  | error err => simp [hs, queries] at hq
  | ok svcs =>
    simp only [hs, queries_services] at hq
    exact queries_services_loop rt c now _ verbose all svcs q hq

theorem first_lookback_eq (now : Time) (h0 : 0 ≤ now.wallNanos) (h1 : now.wallNanos ≤ maxInt64) :
    Duration.Milliseconds (now.Sub (time.UnixMilli 0)) = now.UnixMilli := by
  have hsub : now.Sub (time.UnixMilli 0) = now.wallNanos := by
    unfold Time.Sub time.UnixMilli saturateInt64 minInt64
    unfold maxInt64 at h1
    cases now.mono <;> simp only [maxInt64] <;> split_ifs <;> omega
  rw [hsub]
  unfold Duration.Milliseconds Time.UnixMilli wrapInt64
  unfold maxInt64 at h1
  rw [Int.tdiv_eq_ediv h0 (by norm_num)]
  omega

theorem loop_first_cycle (rt : Runtime) (env : Env) (showflags : showFlags) (fuel cycle : Nat)
    (since : Time) :
    (showSpans rt (env.connection cycle) (env.Now cycle) since showflags.verbose showflags.all).2
      <+: (NewShowCommand.loop rt env showflags (fuel + 1) cycle since).2 := by
  simp only [NewShowCommand.loop]
  cases (showSpans rt (env.connection cycle) (env.Now cycle) since showflags.verbose
      showflags.all).1 with
  | some err => exact List.prefix_refl _
  | none =>
    cases showflags.follow with
    | false => exact List.prefix_refl _
    | true => exact List.prefix_append _ _

theorem mem_output_tags (m : List (String × String)) (line : String) :
    line ∈ output (showSpans.tags m) ↔ ∃ k v, (k, v) ∈ m ∧ line = "    " ++ k ++ "=" ++ v ++ "\n" := by
  rw [showSpans.tags_eq_map, output_map_print]
  simp only [List.mem_map, tagLine, Prod.exists]
  constructor
  · rintro ⟨k, v, hm, rfl⟩
    exact ⟨k, v, hm, rfl⟩
  · rintro ⟨k, v, hm, rfl⟩
    exact ⟨k, v, hm, rfl⟩

/-- Two consecutive follow-mode windows when both clocks advance alike: the window of the later
cycle starts at the end of the earlier one or one millisecond after it. -/
theorem follow_window_start (t0 t1 : Time) (m0 m1 : Int) (hm0 : t0.mono = some m0)
    (hm1 : t1.mono = some m1) (hagree : m1 - m0 = t1.wallNanos - t0.wallNanos)
    (h0 : 0 ≤ t0.wallNanos) (hle : t0.wallNanos ≤ t1.wallNanos) (hmax : t1.wallNanos ≤ maxInt64) :
    t1.UnixMilli - Duration.Milliseconds (t1.Sub t0) = t0.UnixMilli ∨
    t1.UnixMilli - Duration.Milliseconds (t1.Sub t0) = t0.UnixMilli + 1 := by
  have hsub : t1.Sub t0 = t1.wallNanos - t0.wallNanos := by
    unfold Time.Sub saturateInt64 minInt64
    unfold maxInt64 at hmax
    simp only [hm0, hm1, hagree, maxInt64]
    split_ifs <;> omega
  rw [hsub]
  unfold Duration.Milliseconds Time.UnixMilli wrapInt64
  unfold maxInt64 at hmax
  rw [Int.tdiv_eq_ediv (by omega) (by norm_num)]
  omega

theorem summaryLine_ne_empty (span : SpanModel) : summaryLine span ≠ "" := by
  intro h
  have hl := congrArg String.length h
  simp [summaryLine, String.length_append] at hl
  exact absurd hl.2 (by decide)

theorem output_terse_map (rt : Runtime) (l : List SpanModel) :
    l.flatMap (Render rt false) = l.map summaryLine := by
  induction l with
  | nil => rfl
  | cons s rest ih => simp [List.flatMap_cons, Render_terse, ih]

/-! ## The claims -/

/-- Claim C1. `hasCloudEventTagId` returns true exactly when the span's tag map has an
entry with key `cloudevents.id`, whatever its value and whatever the other entries and the
runtime's iteration order; on a span without tags it returns false. -/
theorem hasCloudEventTagId_iff_key (rt : Runtime) (span : SpanModel) :
    (hasCloudEventTagId rt span = true ↔ ∃ v, ("cloudevents.id", v) ∈ span.Tags) ∧
    (hasCloudEventTagId rt span = true ↔ "cloudevents.id" ∈ mapKeys span.Tags) ∧
    hasCloudEventTagId rt { span with Tags := [] } = false := by
  refine ⟨hasCloudEventTagId_eq_true_iff rt span, ?_, ?_⟩
  · rw [hasCloudEventTagId_eq_true_iff, mem_mapKeys]
  · have hnil : rt.rangeOrder [] = [] := List.Perm.eq_nil (rt.rangeOrder_perm [])
    simp [hasCloudEventTagId, hnil, hasCloudEventTagId.loop]

/-- Claim C2. On a successful call, `showSpans` with `all = false` writes exactly the
renderings of the returned spans whose tags contain `cloudevents.id`, and nothing for a span
lacking it; with `all = true` the call succeeds as well and writes the rendering of every
returned span. Every rendering starts with the span's summary line, whose text is the values
of the tags `cloudevents.source`, `cloudevents.id`, `cloudevents.type` separated by blanks and
ended by a newline, and is never the empty string: every emitted span leaves text on standard
output. Without `verbose` the output is that summary text, once for each returned span that has
the tag when `all = false` and once for each returned span when `all = true`, so there are as
many writes as returned spans. -/
theorem showSpans_filter (rt : Runtime) (c : Connection) (now since : Time) (verbose : Bool)
    (h : (showSpans rt c now since verbose false).1 = none) :
    output (showSpans rt c now since verbose false).2 =
        ((returnedSpans c now.UnixMilli (Duration.Milliseconds (now.Sub since))).filter
          fun s => decide ("cloudevents.id" ∈ mapKeys s.Tags)).flatMap (Render rt verbose) ∧
    (showSpans rt c now since verbose true).1 = none ∧
    output (showSpans rt c now since verbose true).2 =
        (returnedSpans c now.UnixMilli (Duration.Milliseconds (now.Sub since))).flatMap
          (Render rt verbose) ∧
    (∀ s : SpanModel, ∃ rest, Render rt verbose s =
        (mapIndex s.Tags "cloudevents.source" ++ " " ++ mapIndex s.Tags "cloudevents.id" ++ " "
          ++ mapIndex s.Tags "cloudevents.type" ++ "\n") :: rest) ∧
    (∀ s : SpanModel,
        mapIndex s.Tags "cloudevents.source" ++ " " ++ mapIndex s.Tags "cloudevents.id" ++ " "
          ++ mapIndex s.Tags "cloudevents.type" ++ "\n" ≠ "") ∧
    output (showSpans rt c now since false false).2 =
        ((returnedSpans c now.UnixMilli (Duration.Milliseconds (now.Sub since))).filter
          fun s => decide ("cloudevents.id" ∈ mapKeys s.Tags)).map (fun s =>
            mapIndex s.Tags "cloudevents.source" ++ " " ++ mapIndex s.Tags "cloudevents.id" ++ " "
              ++ mapIndex s.Tags "cloudevents.type" ++ "\n") ∧
    output (showSpans rt c now since false true).2 =
        (returnedSpans c now.UnixMilli (Duration.Milliseconds (now.Sub since))).map (fun s =>
            mapIndex s.Tags "cloudevents.source" ++ " " ++ mapIndex s.Tags "cloudevents.id" ++ " "
              ++ mapIndex s.Tags "cloudevents.type" ++ "\n") ∧
    (output (showSpans rt c now since false true).2).length =
        (returnedSpans c now.UnixMilli (Duration.Milliseconds (now.Sub since))).length := by
  have h2 : (showSpans rt c now since verbose true).1 = none := by
    rw [showSpans_flags_irrelevant rt c now since verbose true verbose false]
    exact h
  have h3 : (showSpans rt c now since false false).1 = none := by
    rw [showSpans_flags_irrelevant rt c now since false false verbose false]
    exact h
  have h4 : (showSpans rt c now since false true).1 = none := by
    rw [showSpans_flags_irrelevant rt c now since false true verbose false]
    exact h
  have e3 : output (showSpans rt c now since false false).2 =
      ((returnedSpans c now.UnixMilli (Duration.Milliseconds (now.Sub since))).filter
        fun s => decide ("cloudevents.id" ∈ mapKeys s.Tags)).map summaryLine := by
    rw [showSpans_output_returned rt c now since false false h3, keepSpan_false_eq,
      output_terse_map]
  have e4 : output (showSpans rt c now since false true).2 =
      (returnedSpans c now.UnixMilli (Duration.Milliseconds (now.Sub since))).map summaryLine := by
    rw [showSpans_output_returned rt c now since false true h4, keepSpan_true_eq,
      output_terse_map]
    simp
  refine ⟨?_, h2, ?_, Render_head rt verbose, summaryLine_ne_empty, e3, e4, ?_⟩
  · rw [showSpans_output_returned rt c now since verbose false h, keepSpan_false_eq]
  · rw [showSpans_output_returned rt c now since verbose true h2, keepSpan_true_eq]
    simp
  · rw [e4, List.length_map]

/-- Claim C2 on the two-service scenario, under a runtime that ranges over maps in reverse: the
text written with and without `all`, verbose and not. -/
theorem showSpans_filter_witness :
    (showSpans rtReversed connAB (time.UnixMilli 1000) (time.UnixMilli 0) true false).1 = none ∧
    output (showSpans rtReversed connAB (time.UnixMilli 1000) (time.UnixMilli 0) true false).2 =
      ["s 42 t\n", "  broker\n", "  5000000 send 00000000000000ff\n", "  annotations:\n",
       "    \x7b6000000 ws\x7d\n", "  tags:\n", "    cloudevents.source=s\n",
       "    cloudevents.type=t\n", "    cloudevents.id=42\n"] ∧
    output (showSpans rtReversed connAB (time.UnixMilli 1000) (time.UnixMilli 0) true true).2 =
      ["s 42 t\n", "  broker\n", "  5000000 send 00000000000000ff\n", "  annotations:\n",
       "    \x7b6000000 ws\x7d\n", "  tags:\n", "    cloudevents.source=s\n",
       "    cloudevents.type=t\n", "    cloudevents.id=42\n",
       "  \n", "  db\n", "  7000000 get 0000000000000001\n", "  tags:\n",
       "    http.method=GET\n"] ∧
    output (showSpans rtReversed connAB (time.UnixMilli 1000) (time.UnixMilli 0) false false).2 =
      ["s 42 t\n"] ∧
    output (showSpans rtReversed connAB (time.UnixMilli 1000) (time.UnixMilli 0) false true).2 =
      ["s 42 t\n", "  \n"] := by
  have h := showSpans_filter rtReversed connAB (time.UnixMilli 1000) (time.UnixMilli 0) true
    (by decide)
  refine ⟨by decide, ?_, ?_, ?_, ?_⟩
  · rw [h.1]; decide
  · rw [h.2.2.1]; decide
  · rw [h.2.2.2.2.2.1]; decide
  · rw [h.2.2.2.2.2.2.1]; decide

/-- Claim C3. On a successful call with `verbose = false` the output is the list of summary
lines of the kept spans, one per kept span, so there are as many lines as kept spans; a summary
line is the values of the tags `cloudevents.source`, `cloudevents.id`, `cloudevents.type` in
that order, separated by blanks; the value of an absent tag is the empty string and the value
of a present tag is the one stored. -/
theorem showSpans_terse_lines (rt : Runtime) (c : Connection) (now since : Time) (all : Bool)
    (h : (showSpans rt c now since false all).1 = none) :
    output (showSpans rt c now since false all).2 =
        ((returnedSpans c now.UnixMilli (Duration.Milliseconds (now.Sub since))).filter
          (keepSpan rt all)).map summaryLine ∧
    (output (showSpans rt c now since false all).2).length =
        ((returnedSpans c now.UnixMilli (Duration.Milliseconds (now.Sub since))).filter
          (keepSpan rt all)).length ∧
    (∀ s : SpanModel, summaryLine s =
        mapIndex s.Tags "cloudevents.source" ++ " " ++ mapIndex s.Tags "cloudevents.id" ++ " "
          ++ mapIndex s.Tags "cloudevents.type" ++ "\n") ∧
    (∀ m k, k ∉ mapKeys m → mapIndex m k = "") ∧
    (∀ m k v, (mapKeys m).Nodup → (k, v) ∈ m → mapIndex m k = v) := by
  have key : output (showSpans rt c now since false all).2 =
        ((returnedSpans c now.UnixMilli (Duration.Milliseconds (now.Sub since))).filter
          (keepSpan rt all)).map summaryLine := by
    rw [showSpans_output_returned rt c now since false all h]
    generalize (returnedSpans c now.UnixMilli (Duration.Milliseconds (now.Sub since))).filter
      (keepSpan rt all) = l
    induction l with
    | nil => rfl
    | cons s rest ih => simp [List.flatMap_cons, Render_terse, ih]
  refine ⟨key, ?_, fun _ => rfl, mapIndex_absent, mapIndex_present⟩
  rw [key, List.length_map]

/-- Claim C3, scenario of the specification: services A and B, A with one trace holding one
event span and one non-event span, B empty. One line with `all = false`, two with `all = true`. -/
theorem showSpans_terse_lines_witness :
    (showSpans rtStored connAB (time.UnixMilli 1000) (time.UnixMilli 0) false false).1 = none ∧
    output (showSpans rtStored connAB (time.UnixMilli 1000) (time.UnixMilli 0) false false).2
      = ["s 42 t\n"] ∧
    (output (showSpans rtStored connAB (time.UnixMilli 1000) (time.UnixMilli 0) false false).2).length
      = ((returnedSpans connAB 1000 1000).filter (keepSpan rtStored false)).length ∧
    output (showSpans rtStored connAB (time.UnixMilli 1000) (time.UnixMilli 0) false true).2
      = ["s 42 t\n", "  \n"] := by
  refine ⟨by decide, ?_, ?_, ?_⟩
  · rw [(showSpans_terse_lines rtStored connAB (time.UnixMilli 1000) (time.UnixMilli 0) false
      (by decide)).1]
    decide
  · exact (showSpans_terse_lines rtStored connAB (time.UnixMilli 1000) (time.UnixMilli 0) false
      (by decide)).2.1
  · rw [(showSpans_terse_lines rtStored connAB (time.UnixMilli 1000) (time.UnixMilli 0) true
      (by decide)).1]
    decide

/-- Claim C4. In a verbose rendering the lines written by the tag loop close the span's output,
they are the `key=value` lines of the span's tags up to order (one line per tag), and a line is
among them exactly when it is the `key=value` line of some tag of the span. -/
theorem verbose_tag_lines (rt : Runtime) (span : SpanModel) :
    output (showSpans.tags (rt.rangeOrder span.Tags)) <:+ output (showSpans.printSpan rt true span) ∧
    (output (showSpans.tags (rt.rangeOrder span.Tags))).Perm (span.Tags.map tagLine) ∧
    (∀ line, line ∈ output (showSpans.tags (rt.rangeOrder span.Tags)) ↔
      ∃ k v, (k, v) ∈ span.Tags ∧ line = "    " ++ k ++ "=" ++ v ++ "\n") := by
  refine ⟨?_, ?_, ?_⟩
  · have hr := Render_verbose rt span
    unfold Render at hr
    rw [hr, showSpans.tags_eq_map, output_map_print]
    by_cases ht : span.Tags = []
    · have hnil : rt.rangeOrder span.Tags = [] := by
        rw [ht]; exact List.Perm.eq_nil (rt.rangeOrder_perm [])
      rw [hnil]
      exact List.nil_suffix
    · rw [if_neg ht]
      exact ⟨_ ++ ["  tags:\n"], by rw [List.append_assoc]; rfl⟩
  · rw [showSpans.tags_eq_map, output_map_print]
    exact (rt.rangeOrder_perm span.Tags).map tagLine
  · intro line
    rw [mem_output_tags]
    constructor
    · rintro ⟨k, v, hm, rfl⟩
      exact ⟨k, v, (rt.rangeOrder_perm span.Tags).mem_iff.mp hm, rfl⟩
    · rintro ⟨k, v, hm, rfl⟩
      exact ⟨k, v, (rt.rangeOrder_perm span.Tags).mem_iff.mpr hm, rfl⟩

/-- Claim C5, amended. When the `Spans` query fails for a service and succeeded for the
services enumerated before it, `showSpans` returns that error, the queries issued are those for
the earlier services and the failing one (no later service is queried), and the output is
exactly the lines of the kept spans of the earlier services: nothing is written for the failing
service or a later one, and what was written before the failure stays written. When `Services`
fails the call returns that error after that single call. -/
theorem showSpans_spans_failure (rt : Runtime) (c : Connection) (now since : Time)
    (verbose all : Bool) (pre post : List String) (failing : String) (err : Error)
    (hs : c.Services = Except.ok (pre ++ failing :: post))
    (hpre : ∀ svc ∈ pre, ∃ r,
      c.Spans svc now.UnixMilli (Duration.Milliseconds (now.Sub since)) = Except.ok r)
    (hf : c.Spans failing now.UnixMilli (Duration.Milliseconds (now.Sub since))
      = Except.error err) :
    (showSpans rt c now since verbose all).1 = some err ∧
    queries (showSpans rt c now since verbose all).2 =
      (pre ++ [failing]).map
        (fun svc => (svc, now.UnixMilli, Duration.Milliseconds (now.Sub since))) ∧
    output (showSpans rt c now since verbose all).2 =
      pre.flatMap (fun svc =>
        ((c.tracesOf now.UnixMilli (Duration.Milliseconds (now.Sub since)) svc).flatten.filter
          (keepSpan rt all)).flatMap (Render rt verbose)) ∧
    showSpans rt { c with Services := Except.error err } now since verbose all
      = (some err, [Event.services]) := by
  have hloop : showSpans.services rt c now (Duration.Milliseconds (now.Sub since)) verbose all
      (pre ++ failing :: post) =
      (some err, (pre.flatMap fun svc =>
          Event.spans svc now.UnixMilli (Duration.Milliseconds (now.Sub since)) ::
            showSpans.traces rt verbose all
              (c.tracesOf now.UnixMilli (Duration.Milliseconds (now.Sub since)) svc))
        ++ [Event.spans failing now.UnixMilli (Duration.Milliseconds (now.Sub since))]) := by
    rw [services_loop_append, services_loop_ok rt c now _ verbose all pre hpre]
    simp [showSpans.services, hf]
  refine ⟨?_, ?_, ?_, ?_⟩
  · simp [showSpans, hs, hloop]
  · simp only [showSpans, hs, hloop, queries_services, queries_append, queries_flatMap_services,
      List.map_append, List.map_cons, List.map_nil, queries_spans]
    rfl
  · simp only [showSpans, hs, hloop, output_services, output_append, output_flatMap_services,
      output_spans, output_nil, List.append_nil]
  · simp [showSpans]

/-- Claim C5, amended, on services A, B, C where the query for B fails. -/
theorem showSpans_spans_failure_witness :
    (showSpans rtStored connSpansFail (time.UnixMilli 1000) (time.UnixMilli 0) false false).1
      = some "zipkin: 503" ∧
    queries (showSpans rtStored connSpansFail (time.UnixMilli 1000) (time.UnixMilli 0) false false).2
      = [("A", 1000, 1000), ("B", 1000, 1000)] ∧
    output (showSpans rtStored connSpansFail (time.UnixMilli 1000) (time.UnixMilli 0) false false).2
      = ["s 42 t\n"] := by
  have h := showSpans_spans_failure rtStored connSpansFail (time.UnixMilli 1000) (time.UnixMilli 0)
    false false ["A"] ["C"] "B" "zipkin: 503" rfl
    (by intro svc hsvc; simp at hsvc; subst hsvc; exact ⟨_, rfl⟩) rfl
  refine ⟨h.1, ?_, ?_⟩
  · rw [h.2.1]; decide
  · rw [h.2.2.1]; decide

/-- Claim C5 as stated fails: with services A, B, C, one event span in A and a failing query
for B, `showSpans` returns the error although a span line of A has been written. -/
theorem showSpans_spans_failure_counterexample :
    (showSpans rtStored connSpansFail (time.UnixMilli 1000) (time.UnixMilli 0) false false).1
      = some "zipkin: 503" ∧
    output (showSpans rtStored connSpansFail (time.UnixMilli 1000) (time.UnixMilli 0) false false).2
      = ["s 42 t\n"] ∧
    output (showSpans rtStored connSpansFail (time.UnixMilli 1000) (time.UnixMilli 0) false false).2
      ≠ [] := by
  decide

/-- Claim C6. When `Services()` fails in a poll cycle, `showSpans` returns that error having made
no `Spans` query and written nothing, and the polling loop returns the same error in that
cycle, with or without `follow`: no sleep and no further cycle. For the first cycle this is the
whole run. -/
theorem services_failure_terminates (rt : Runtime) (env : Env) (showflags : showFlags)
    (fuel cycle : Nat) (since : Time) (err : Error)
    (h : (env.connection cycle).Services = Except.error err) :
    showSpans rt (env.connection cycle) (env.Now cycle) since showflags.verbose showflags.all
      = (some err, [Event.services]) ∧
    NewShowCommand.loop rt env showflags (fuel + 1) cycle since
      = (Outcome.returned (some err), [Event.services]) ∧
    (cycle = 0 → NewShowCommand.RunE rt env showflags (fuel + 1)
      = (Outcome.returned (some err), [Event.services])) := by
  have h1 : showSpans rt (env.connection cycle) (env.Now cycle) since showflags.verbose
      showflags.all = (some err, [Event.services]) := by
    simp [showSpans, h]
  have h2 : ∀ s : Time, NewShowCommand.loop rt env showflags (fuel + 1) cycle s
      = (Outcome.returned (some err), [Event.services]) := by
    intro s
    have hs : showSpans rt (env.connection cycle) (env.Now cycle) s showflags.verbose
        showflags.all = (some err, [Event.services]) := by
      simp [showSpans, h]
    simp [NewShowCommand.loop, hs]
  refine ⟨h1, h2 since, ?_⟩
  intro h0
  subst h0
  exact h2 _

/-- Claim C6 on a backend whose `Services()` call fails, in follow mode and in one-shot mode. -/
theorem services_failure_terminates_witness :
    NewShowCommand.loop rtStored envServicesFail flagsFollow 5 0 (time.UnixMilli 0)
      = (Outcome.returned (some "zipkin: unreachable"), [Event.services]) ∧
    NewShowCommand.RunE rtStored envServicesFail flagsDefault 1
      = (Outcome.returned (some "zipkin: unreachable"), [Event.services]) :=
  ⟨(services_failure_terminates rtStored envServicesFail flagsFollow 4 0 (time.UnixMilli 0)
      "zipkin: unreachable" rfl).2.1,
   (services_failure_terminates rtStored envServicesFail flagsDefault 0 0 (time.UnixMilli 0)
      "zipkin: unreachable" rfl).2.2 rfl⟩

/-- Claim C7, evaluated on two consecutive follow-mode cycles 1.000000001 s apart that start
at 04:26:40.000999999 and 04:26:41.001: the first query ends at millisecond 1636000000000, the
second is issued with end 1636000001001 and lookback 1000, so its window starts at millisecond
1636000000001, one millisecond after the end of the first window. -/
theorem follow_window_gap :
    NewShowCommand.RunE rtStored envFollow flagsFollow 2 =
      (Outcome.running,
        [Event.services, Event.spans "svc" 1636000000000 1636000000000, Event.sleep 1000000000,
         Event.services, Event.spans "svc" 1636000001001 1000, Event.sleep 1000000000]) ∧
    (envFollow.Now 1).UnixMilli - Duration.Milliseconds ((envFollow.Now 1).Sub (envFollow.Now 0))
      = (envFollow.Now 0).UnixMilli + 1 := by
  decide

/-- Claim C8. On a successful call the output is the concatenation, over the services in the
order `Services()` listed them, of the renderings of the kept spans of that service, taken from
the traces flattened in trace-then-span order. -/
theorem showSpans_output_order (rt : Runtime) (c : Connection) (now since : Time)
    (verbose all : Bool) (h : (showSpans rt c now since verbose all).1 = none) :
    output (showSpans rt c now since verbose all).2 =
      c.serviceList.flatMap fun svc =>
        ((c.tracesOf now.UnixMilli (Duration.Milliseconds (now.Sub since)) svc).flatten.filter
          (keepSpan rt all)).flatMap (Render rt verbose) := by
  rw [showSpans_events rt c now since verbose all h, output_services, output_flatMap_services]

/-- Claim C8 on the two-service scenario, verbose and with `all` set. -/
theorem showSpans_output_order_witness :
    (showSpans rtStored connAB (time.UnixMilli 1000) (time.UnixMilli 0) true true).1 = none ∧
    output (showSpans rtStored connAB (time.UnixMilli 1000) (time.UnixMilli 0) true true).2 =
      ["s 42 t\n", "  broker\n", "  5000000 send 00000000000000ff\n", "  annotations:\n",
       "    \x7b6000000 ws\x7d\n", "  tags:\n", "    cloudevents.id=42\n",
       "    cloudevents.type=t\n", "    cloudevents.source=s\n",
       "  \n", "  db\n", "  7000000 get 0000000000000001\n", "  tags:\n",
       "    http.method=GET\n"] := by
  refine ⟨by decide, ?_⟩
  rw [showSpans_output_order rtStored connAB (time.UnixMilli 1000) (time.UnixMilli 0) true true
    (by decide)]
  decide

/-- Claim C9. The verbose output for a kept span is, in this order: the summary line, the local
endpoint's service name if there is a local endpoint, the remote endpoint's service name if
there is a remote endpoint, the line with timestamp, name and id, then if there are annotations
the header `  annotations:` and one line per annotation in list order, then if there are tags
the header `  tags:` and one `key=value` line per tag. The text of every line is spelled out:
an endpoint line is the endpoint's service name after two blanks, the detail line is the
timestamp, the span name and the span id separated by blanks after two blanks, an annotation
line is the annotation's timestamp and value between braces after four blanks, a tag line is
`key=value` after four blanks; the tag lines are those of the span's tags in the runtime's
iteration order, a permutation of the tags. Without `verbose` only the summary line is
written. -/
theorem printSpan_layout (rt : Runtime) (span : SpanModel) :
    output (showSpans.printSpan rt true span) =
      [mapIndex span.Tags "cloudevents.source" ++ " " ++ mapIndex span.Tags "cloudevents.id" ++ " "
        ++ mapIndex span.Tags "cloudevents.type" ++ "\n"]
        ++ (span.LocalEndpoint.map fun ep => "  " ++ ep.ServiceName ++ "\n").toList
        ++ (span.RemoteEndpoint.map fun ep => "  " ++ ep.ServiceName ++ "\n").toList
        ++ ["  " ++ rt.timeString span.Timestamp ++ " " ++ span.Name ++ " " ++ ID.String span.ID
            ++ "\n"]
        ++ (if span.Annotations = [] then []
            else "  annotations:\n" :: span.Annotations.map fun a =>
              "    \x7b" ++ rt.timeString a.Timestamp ++ " " ++ a.Value ++ "\x7d\n")
        ++ (if span.Tags = [] then []
            else "  tags:\n" :: (rt.rangeOrder span.Tags).map fun kv =>
              "    " ++ kv.1 ++ "=" ++ kv.2 ++ "\n") ∧
    (rt.rangeOrder span.Tags).Perm span.Tags ∧
    ((rt.rangeOrder span.Tags).map fun kv => "    " ++ kv.1 ++ "=" ++ kv.2 ++ "\n").length
      = span.Tags.length ∧
    (span.Annotations.map fun a =>
        "    \x7b" ++ rt.timeString a.Timestamp ++ " " ++ a.Value ++ "\x7d\n").length
      = span.Annotations.length ∧
    output (showSpans.printSpan rt false span) =
      [mapIndex span.Tags "cloudevents.source" ++ " " ++ mapIndex span.Tags "cloudevents.id" ++ " "
        ++ mapIndex span.Tags "cloudevents.type" ++ "\n"] := by
  refine ⟨Render_verbose rt span, rt.rangeOrder_perm span.Tags, ?_, ?_, Render_terse rt span⟩
  · simpa using (rt.rangeOrder_perm span.Tags).length_eq
  · simp

/-- Claim C9 on three spans: one with a local endpoint, an annotation and three tags; one with
a remote endpoint and one tag; one with both endpoints and neither annotations nor tags. The
id is printed as sixteen hexadecimal digits. -/
theorem printSpan_layout_witness :
    output (showSpans.printSpan rtStored true eventSpan) =
      ["s 42 t\n", "  broker\n", "  5000000 send 00000000000000ff\n", "  annotations:\n",
       "    \x7b6000000 ws\x7d\n", "  tags:\n", "    cloudevents.id=42\n",
       "    cloudevents.type=t\n", "    cloudevents.source=s\n"] ∧
    output (showSpans.printSpan rtReversed true plainSpan) =
      ["  \n", "  db\n", "  7000000 get 0000000000000001\n", "  tags:\n",
       "    http.method=GET\n"] ∧
    output (showSpans.printSpan rtStored true bareSpan) =
      ["  \n", "  ingress\n", "  sink\n", "  9000000 relay 0000000000001000\n"] ∧
    output (showSpans.printSpan rtStored false eventSpan) = ["s 42 t\n"] :=
  ⟨(printSpan_layout rtStored eventSpan).1.trans (by decide),
   (printSpan_layout rtReversed plainSpan).1.trans (by decide),
   (printSpan_layout rtStored bareSpan).1.trans (by decide),
   (printSpan_layout rtStored eventSpan).2.2.2.2.trans (by decide)⟩

/-- Claim C10, amended. The first cycle of a run is `showSpans` with `since = time.UnixMilli(0)`;
when the current time is not before the epoch and at most the largest `time.Duration` after it,
the lookback equals the end timestamp, and every `Spans` query of the first cycle is issued
with the current time in milliseconds as end timestamp and the same number as lookback. -/
theorem first_window_from_epoch (rt : Runtime) (env : Env) (showflags : showFlags) (fuel : Nat)
    (h0 : 0 ≤ (env.Now 0).wallNanos) (h1 : (env.Now 0).wallNanos ≤ maxInt64) :
    (showSpans rt (env.connection 0) (env.Now 0) (time.UnixMilli 0) showflags.verbose
        showflags.all).2 <+: (NewShowCommand.RunE rt env showflags (fuel + 1)).2 ∧
    Duration.Milliseconds ((env.Now 0).Sub (time.UnixMilli 0)) = (env.Now 0).UnixMilli ∧
    ∀ q ∈ queries (showSpans rt (env.connection 0) (env.Now 0) (time.UnixMilli 0)
        showflags.verbose showflags.all).2,
      q.2.1 = (env.Now 0).UnixMilli ∧ q.2.2 = q.2.1 ∧ q.2.1 - q.2.2 = 0 := by
  refine ⟨loop_first_cycle rt env showflags fuel 0 (time.UnixMilli 0),
    first_lookback_eq (env.Now 0) h0 h1, ?_⟩
  intro q hq
  obtain ⟨he, hl⟩ := queries_showSpans rt (env.connection 0) (env.Now 0) (time.UnixMilli 0)
    showflags.verbose showflags.all q hq
  rw [first_lookback_eq (env.Now 0) h0 h1] at hl
  refine ⟨he, ?_, ?_⟩
  · rw [hl, he]
  · rw [hl, he]; omega

/-- Claim C10, amended, on a run started at 2021-11-04T04:26:40.5Z. -/
theorem first_window_from_epoch_witness :
    (0 : Int) ≤ (envToday.Now 0).wallNanos ∧ (envToday.Now 0).wallNanos ≤ maxInt64 ∧
    queries (NewShowCommand.RunE rtStored envToday flagsDefault 1).2
      = [("A", 1636000000500, 1636000000500), ("B", 1636000000500, 1636000000500)] ∧
    Duration.Milliseconds ((envToday.Now 0).Sub (time.UnixMilli 0)) = (envToday.Now 0).UnixMilli :=
  ⟨by decide, by decide, by decide,
   (first_window_from_epoch rtStored envToday flagsDefault 0 (by decide) (by decide)).2.1⟩

/-- Claim C10 as stated fails: for a run started at 2300-01-01T00:00:00Z the difference to the
epoch exceeds the largest `time.Duration`, `Sub` saturates, and the query is issued with
lookback 9223372036854 and end timestamp 10413792000000. -/
theorem first_window_from_epoch_counterexample :
    queries (NewShowCommand.RunE rtStored envFarFuture flagsDefault 1).2
      = [("svc", 10413792000000, 9223372036854)] ∧
    (envFarFuture.Now 0).UnixMilli = 10413792000000 ∧
    Duration.Milliseconds ((envFarFuture.Now 0).Sub (time.UnixMilli 0)) = 9223372036854 ∧
    Duration.Milliseconds ((envFarFuture.Now 0).Sub (time.UnixMilli 0))
      ≠ (envFarFuture.Now 0).UnixMilli := by
  decide

end KnTrace
